import Mathlib

/-!
Verification of the scirpy `datasets` module (`src/scirpy/datasets/__init__.py`):
the record-normalization pipeline turning VDJDB and IEDB database exports into
per-cell, per-chain AIRR records.

Source rows and chain records are embedded shallowly: a pandas cell value is an
`Option String` (`none` = NaN/null), a dataframe is a `List` of row structures,
and the per-row normalizers are Lean functions mirroring the Python loop bodies.
-/

namespace Scirpy

/-- One AIRR chain record.  Mirrors the dict produced by
`AirrCell.empty_chain_dict()` plus the keys the normalizers write: the fixed
field set is always fully present, with explicit nulls (`none`) for missing
values. -/
structure Chain where
  locus : Option String
  junction_aa : Option String
  junction : Option String
  v_call : Option String
  d_call : Option String
  j_call : Option String
  consensus_count : Option Nat
  productive : Option Bool
deriving DecidableEq, Repr

/-- Modelled from the spec: `AirrCell.empty_chain_dict()` lives in `scirpy.io`
(not under `src/`); per the spec a chain dict always contains the full fixed
field set with explicit nulls, never absent keys. -/
def emptyChainDict : Chain :=
  ⟨none, none, none, none, none, none, none, none⟩

/-- One normalized cell: a stable identifier, an ordered list of chains, and an
ordered association list of scalar metadata fields.  Mirrors `AirrCell`
(`scirpy.io`, not under `src/`). -/
structure AirrCell where
  cell_id : String
  chains : List Chain
  metadata : List (String × Option String)
deriving DecidableEq, Repr

/-- Modelled from the spec: `AirrCell.add_chain` (`scirpy.io`, not under
`src/`); chains are added in the order the row normalizer discovers them and
the cell does not reorder them. -/
def addChain (c : AirrCell) (ch : Chain) : AirrCell :=
  { c with chains := c.chains ++ [ch] }

/-- Modelled from the spec: `cell[f] = v` on an `AirrCell` (`scirpy.io`, not
under `src/`) records a scalar metadata field on the cell. -/
def setItem (c : AirrCell) (k : String) (v : Option String) : AirrCell :=
  { c with metadata := c.metadata ++ [(k, v)] }

/-- The closed set of locus codes (spec glossary). -/
def locusCodes : List String :=
  ["TRA", "TRB", "TRG", "TRD", "IGH", "IGK", "IGL"]

/-- Modelled from the spec: `_infer_locus_from_gene_names` (`scirpy.io._io`,
not under `src/`): if a gene name's first characters match a recognized
locus-code prefix, that locus is returned. -/
def locusFromGeneName (gene : String) : Option String :=
  locusCodes.find? (fun code => code.data.isPrefixOf gene.data)

/-- A key naming one of the gene-call fields of a chain, in the form the locus
resolver receives them. -/
inductive GeneKey where
  | v
  | d
  | j
deriving DecidableEq, Repr

/-- Look up the gene-call field a `GeneKey` names. -/
def Chain.geneField (c : Chain) : GeneKey → Option String
  | GeneKey.v => c.v_call
  | GeneKey.d => c.d_call
  | GeneKey.j => c.j_call

/-- Modelled from the spec: `_infer_locus_from_gene_names(chain, keys)`
(`scirpy.io._io`, not under `src/`): inspect each key in priority order and
return the first locus whose code prefixes that gene name; `none` when no key
yields a match (locus stays unresolved, a logged data-quality issue that never
aborts the run). -/
def inferLocusFromGeneNames (c : Chain) (keys : List GeneKey) : Option String :=
  keys.findSome? (fun k => (c.geneField k).bind locusFromGeneName)

/-! ## VDJDB row normalizer (`vdjdb`, lines 176-238) -/

/-- One row of `vdjdb_full.txt` restricted to the columns the normalizer
reads; `meta` is the row's value at an arbitrary metadata column name. -/
structure VdjdbRow where
  cdr3_alpha : Option String
  v_alpha : Option String
  j_alpha : Option String
  cdr3_beta : Option String
  v_beta : Option String
  d_beta : Option String
  j_beta : Option String
  meta : String → Option String

/-- The TRA chain built when `cdr3.alpha` is non-null (lines 181-192). -/
def vdjdbAlphaChain (row : VdjdbRow) : Chain :=
  { emptyChainDict with
      locus := some "TRA"
      junction_aa := row.cdr3_alpha
      v_call := row.v_alpha
      j_call := row.j_alpha
      consensus_count := some 0
      productive := some true }

/-- The TRB chain built when `cdr3.beta` is non-null (lines 195-207). -/
def vdjdbBetaChain (row : VdjdbRow) : Chain :=
  { emptyChainDict with
      locus := some "TRB"
      junction_aa := row.cdr3_beta
      v_call := row.v_beta
      d_call := row.d_beta
      j_call := row.j_beta
      consensus_count := some 0
      productive := some true }

/-- The metadata allow-list copied onto every VDJDB cell (lines 209-235). -/
def INCLUDE_CELL_METADATA_FIELDS : List String :=
  ["species", "mhc.a", "mhc.b", "mhc.class", "antigen.epitope", "antigen.gene",
   "antigen.species", "reference.id", "method.identification",
   "method.frequency", "method.singlecell", "method.sequencing",
   "method.verification", "meta.study.id", "meta.cell.subset",
   "meta.subject.cohort", "meta.subject.id", "meta.replica.id",
   "meta.clone.id", "meta.epitope.id", "meta.tissue", "meta.donor.MHC",
   "meta.donor.MHC.method", "meta.structure.id", "vdjdb.score"]

/-- The loop body of `vdjdb` (lines 179-238): build a cell from one dataframe
row under its positional index. -/
def vdjdbRowToCell (idx : Nat) (row : VdjdbRow) : AirrCell :=
  let cell : AirrCell := ⟨toString idx, [], []⟩
  let cell := if row.cdr3_alpha.isSome then addChain cell (vdjdbAlphaChain row) else cell
  let cell := if row.cdr3_beta.isSome then addChain cell (vdjdbBetaChain row) else cell
  INCLUDE_CELL_METADATA_FIELDS.foldl (fun c f => setItem c f (row.meta f)) cell

/-- The full VDJDB normalization sweep: one cell per row, keyed by the row's
positional index (`df.iterrows()` over a fresh `RangeIndex`). -/
def vdjdbNormalize (rows : List VdjdbRow) : List AirrCell :=
  rows.enum.map (fun p => vdjdbRowToCell p.1 p.2)

/-! ## IEDB table preprocessing and row normalizer (`iedb`, lines 289-378) -/

/-- One row of the IEDB `receptor_full_v3` export restricted to the columns
the normalizer reads.  `na_values=["None"]` turns the literal `"None"` into
null, so every value is an `Option String`. -/
structure IedbRow where
  chain1CDR3Curated : Option String
  chain1CDR3Calculated : Option String
  chain2CDR3Curated : Option String
  chain2CDR3Calculated : Option String
  chain1VCurated : Option String
  chain1VCalculated : Option String
  chain2VCurated : Option String
  chain2VCalculated : Option String
  chain1DCurated : Option String
  chain1DCalculated : Option String
  chain2DCurated : Option String
  chain2DCalculated : Option String
  chain1JCurated : Option String
  chain1JCalculated : Option String
  chain2JCurated : Option String
  chain2JCalculated : Option String
  organism : Option String
  antigen : Option String
  responseType : Option String
  chain1Type : Option String
  chain2Type : Option String
  receptorId : Option String
  referenceIri : Option String
  epitopeIri : Option String
deriving DecidableEq, Repr

/-- Pandas `drop_duplicates` with `keep="first"`: keep a row only when its key has
not been seen in an earlier row.  `seen` accumulates the keys already kept. -/
def dedupByKeyAux {α κ : Type} [DecidableEq κ] (key : α → κ) :
    List κ → List α → List α
  | _, [] => []
  | seen, r :: rs =>
    if key r ∈ seen then dedupByKeyAux key seen rs
    else r :: dedupByKeyAux key (key r :: seen) rs

/-- Pandas `df.drop_duplicates(subset)`: first occurrence of each key survives. -/
def dedupByKey {α κ : Type} [DecidableEq κ] (key : α → κ) (l : List α) : List α :=
  dedupByKeyAux key [] l

/-- The column tuple `drop_duplicates` deduplicates on (lines 290-300). -/
structure IedbKeyT where
  chain1CDR3Curated : Option String
  chain2CDR3Curated : Option String
  organism : Option String
  antigen : Option String
  responseType : Option String
  chain1Type : Option String
  chain2Type : Option String
deriving DecidableEq, Repr

/-- The dedup key tuple of `iedb_df.drop_duplicates([...])` (lines 290-300). -/
def iedbKey (r : IedbRow) : IedbKeyT :=
  ⟨r.chain1CDR3Curated, r.chain2CDR3Curated, r.organism, r.antigen,
   r.responseType, r.chain1Type, r.chain2Type⟩

/-- Pandas `Series.str.upper()` on one string value: upper-case each character. -/
def strUpper (s : String) : String :=
  ⟨s.data.map Char.toUpper⟩

/-- The per-column body of `replace_curated` (lines 303-309): a null curated
value is back-filled from the calculated column, then the curated column is
upper-cased (`.str.upper()`; upper of a null stays null). -/
def backfillUpper (curated calculated : Option String) : Option String :=
  (match curated with
   | none => calculated
   | some s => some s).map strUpper

/-- The four `replace_curated` calls (lines 311-314) acting on one row: the
curated CDR3/V/D/J columns of both chains are back-filled and upper-cased. -/
def replaceCuratedRow (r : IedbRow) : IedbRow :=
  { r with
      chain1CDR3Curated := backfillUpper r.chain1CDR3Curated r.chain1CDR3Calculated
      chain2CDR3Curated := backfillUpper r.chain2CDR3Curated r.chain2CDR3Calculated
      chain1VCurated := backfillUpper r.chain1VCurated r.chain1VCalculated
      chain2VCurated := backfillUpper r.chain2VCurated r.chain2VCalculated
      chain1DCurated := backfillUpper r.chain1DCurated r.chain1DCalculated
      chain2DCurated := backfillUpper r.chain2DCurated r.chain2DCalculated
      chain1JCurated := backfillUpper r.chain1JCurated r.chain1JCalculated
      chain2JCurated := backfillUpper r.chain2JCurated r.chain2JCalculated }

/-- Lines 289-300: exact-duplicate rows are dropped, then rows duplicated on
the fixed key tuple are dropped (first survivor kept in both passes). -/
def iedbDedup (rows : List IedbRow) : List IedbRow :=
  dedupByKey iedbKey (dedupByKey (fun r => r) rows)

/-- Lines 289-314: deduplication followed by the curated/calculated
back-filling (which is per-row, so it commutes with the row sweep). -/
def iedbPreprocessed (rows : List IedbRow) : List IedbRow :=
  (iedbDedup rows).map replaceCuratedRow

/-- Line 316: `iedb_df["cell_id"] = iedb_df.reset_index(drop=True).index`
attaches to each post-deduplication row its 0-based positional index. -/
def iedbWithIds (rows : List IedbRow) : List (Nat × IedbRow) :=
  (iedbPreprocessed rows).enum

/-- The accepted chain-type labels (line 318). -/
def acceptedChains : List String :=
  ["alpha", "beta", "heavy", "light", "gamma", "delta"]

/-- Pandas `Series.isin(accepted_chains)` on one value: null is never a member. -/
def chainTypeAccepted : Option String → Bool
  | some s => acceptedChains.contains s
  | none => false

/-- Lines 319-322: rows whose chain-type labels are not both accepted are
dropped.  This happens after `cell_id` assignment, so surviving ids keep
their pre-filter values. -/
def iedbFiltered (rows : List IedbRow) : List (Nat × IedbRow) :=
  (iedbWithIds rows).filter
    (fun p => chainTypeAccepted p.2.chain1Type && chainTypeAccepted p.2.chain2Type)

/-- The `receptor_dict` chain-type-label → locus table (lines 324-332);
`"light"` maps to null because IEDB does not distinguish lambda and kappa. -/
def receptorDict : String → Option String
  | "alpha" => some "TRA"
  | "beta" => some "TRB"
  | "heavy" => some "IGH"
  | "light" => none
  | "gamma" => some "TRG"
  | "delta" => some "TRD"
  | _ => none

/-- The chain-1 dict of the IEDB loop body (lines 345-356).  Note `d_call` is
the literal `None`: the row's Chain 1 D Gene columns are never read. -/
def iedbChain1 (r : IedbRow) : Chain :=
  { emptyChainDict with
      locus := r.chain1Type.bind receptorDict
      junction_aa := r.chain1CDR3Curated
      junction := none
      consensus_count := none
      v_call := r.chain1VCurated
      d_call := none
      j_call := r.chain1JCurated
      productive := some true }

/-- The chain-2 dict of the IEDB loop body (lines 357-368). -/
def iedbChain2 (r : IedbRow) : Chain :=
  { emptyChainDict with
      locus := r.chain2Type.bind receptorDict
      junction_aa := r.chain2CDR3Curated
      junction := none
      consensus_count := none
      v_call := r.chain2VCurated
      d_call := r.chain2DCurated
      j_call := r.chain2JCurated
      productive := some true }

/-- Lines 369-375: when the locus is unresolved the Locus Resolver is invoked
over (`v_call`, `d_call`, `j_call`) in that priority order; a resolved locus
is left untouched. -/
def resolveChainLocus (c : Chain) : Chain :=
  match c.locus with
  | none => { c with locus := inferLocusFromGeneNames c [GeneKey.v, GeneKey.d, GeneKey.j] }
  | some _ => c

/-- The IEDB loop body (lines 335-378): one cell per surviving row, carrying
six metadata fields and both chains (each chain is added unconditionally). -/
def iedbRowToCell (cid : Nat) (r : IedbRow) : AirrCell :=
  let cell : AirrCell := ⟨toString cid, [], []⟩
  let cell := setItem cell "Receptor ID" r.receptorId
  let cell := setItem cell "Antigen" r.antigen
  let cell := setItem cell "Organism" r.organism
  let cell := setItem cell "Response Type" r.responseType
  let cell := setItem cell "Reference IRI" r.referenceIri
  let cell := setItem cell "Epitope IRI" r.epitopeIri
  let cell := addChain cell (resolveChainLocus (iedbChain1 r))
  let cell := addChain cell (resolveChainLocus (iedbChain2 r))
  cell

/-- The full IEDB normalization sweep over the preprocessed, id-tagged,
chain-type-filtered table. -/
def iedbCells (rows : List IedbRow) : List AirrCell :=
  (iedbFiltered rows).map (fun p => iedbRowToCell p.1 p.2)

/-! ## Cache-or-fetch orchestrator (lines 155-159 and 273-277) -/

/-- Outcome of the cache-read collaborator (`sc.read_h5ad`): a valid prior
result, or one of the read-failure kinds, each of which surfaces in Python as
an `OSError` that the orchestrator catches. -/
inductive CacheRead (α : Type) where
  | ok (d : α)
  | missingFile
  | unreadableFormat
deriving DecidableEq, Repr

/-- The shared orchestrator shape of `vdjdb` and `iedb`: on `cached` with a
readable cache, return the cached container; otherwise fall through to the
fetch-and-normalize path.  The second component counts invocations of the
fetch collaborator. -/
def loadWithCache {α β : Type} (cached : Bool) (cacheRead : CacheRead α)
    (fetch : Unit → β) (normalize : β → α) : α × Nat :=
  if cached then
    match cacheRead with
    | CacheRead.ok d => (d, 0)
    | CacheRead.missingFile => (normalize (fetch ()), 1)
    | CacheRead.unreadableFormat => (normalize (fetch ()), 1)
  else (normalize (fetch ()), 1)

/-- The `vdjdb(cached, cache_path)` orchestrator (lines 155-159 around the fetch path). -/
def vdjdbLoad (cached : Bool) (cacheRead : CacheRead (List AirrCell))
    (fetch : Unit → List VdjdbRow) : List AirrCell × Nat :=
  loadWithCache cached cacheRead fetch vdjdbNormalize

/-- The `iedb(cached, cache_path)` orchestrator (lines 273-277 around the fetch path). -/
def iedbLoad (cached : Bool) (cacheRead : CacheRead (List AirrCell))
    (fetch : Unit → List IedbRow) : List AirrCell × Nat :=
  loadWithCache cached cacheRead fetch iedbCells

/-! ## Helper lemmas -/

/-- Recording metadata does not touch the chain list. -/
theorem foldl_setItem_chains (g : String → Option String) (fields : List String)
    (cell : AirrCell) :
    (List.foldl (fun c f => setItem c f (g f)) cell fields).chains = cell.chains := by
  induction fields generalizing cell with
  | nil => rfl
  | cons f fs ih => rw [List.foldl_cons, ih]; rfl

/-- The metadata loop appends one `(field, value)` entry per allow-list
field, in order. -/
theorem foldl_setItem_metadata (g : String → Option String) (fields : List String)
    (cell : AirrCell) :
    (List.foldl (fun c f => setItem c f (g f)) cell fields).metadata
      = cell.metadata ++ fields.map (fun f => (f, g f)) := by
  induction fields generalizing cell with
  | nil => simp
  | cons f fs ih => rw [List.foldl_cons, ih]; simp [setItem]

/-- The chain list a VDJDB row emits: the TRA chain exactly when `cdr3.alpha`
is non-null, then the TRB chain exactly when `cdr3.beta` is non-null. -/
theorem vdjdbRowToCell_chains (idx : Nat) (row : VdjdbRow) :
    (vdjdbRowToCell idx row).chains
      = (if row.cdr3_alpha.isSome then [vdjdbAlphaChain row] else [])
        ++ (if row.cdr3_beta.isSome then [vdjdbBetaChain row] else []) := by
  simp only [vdjdbRowToCell, foldl_setItem_chains]
  rcases row.cdr3_alpha <;> rcases row.cdr3_beta <;> simp [addChain]

/-- Looking up a field inside the allow-list in the copied metadata returns
the row's value at that field (present even when the value is null). -/
theorem lookup_map_pair_of_mem (g : String → Option String) (fields : List String)
    (f : String) : f ∈ fields → (fields.map (fun x => (x, g x))).lookup f = some (g f) := by
  induction fields with
  | nil => intro h; cases h
  | cons a as ih =>
    intro h
    by_cases hfa : f = a
    · subst hfa; simp [List.lookup]
    · rcases List.mem_cons.mp h with h1 | h2
      · exact absurd h1 hfa
      · have hb : (f == a) = false := beq_false_of_ne hfa
        simp only [List.map_cons, List.lookup, hb]
        exact ih h2

/-- Looking up a field outside the allow-list in the copied metadata finds
nothing: unlisted columns are dropped. -/
theorem lookup_map_pair_of_not_mem (g : String → Option String) (fields : List String)
    (f : String) : f ∉ fields → (fields.map (fun x => (x, g x))).lookup f = none := by
  induction fields with
  | nil => intro _; rfl
  | cons a as ih =>
    intro h
    have hfa : ¬f = a := fun e => h (e ▸ List.mem_cons_self a as)
    have h2 : f ∉ as := fun e => h (List.mem_cons_of_mem a e)
    have hb : (f == a) = false := beq_false_of_ne hfa
    simp only [List.map_cons, List.lookup, hb]
    exact ih h2

/-- The metadata copied onto a VDJDB cell is exactly the allow-list sweep. -/
theorem vdjdbRowToCell_metadata (idx : Nat) (row : VdjdbRow) :
    (vdjdbRowToCell idx row).metadata
      = INCLUDE_CELL_METADATA_FIELDS.map (fun f => (f, row.meta f)) := by
  simp only [vdjdbRowToCell, foldl_setItem_metadata]
  rcases row.cdr3_alpha <;> rcases row.cdr3_beta <;> simp [addChain]

/-- A VDJDB row with every column null. -/
def nullVdjdbRow : VdjdbRow :=
  ⟨none, none, none, none, none, none, none, fun _ => none⟩

/-! ## Claim theorems -/

/-- Claim C1: for every VDJDB source row, normalization emits a TRA chain iff
`cdr3.alpha` is non-null and a TRB chain iff `cdr3.beta` is non-null (zero,
one, or two chains per row); every emitted chain has `consensus_count` 0 and
`productive` true, the TRA chain's `junction_aa` equals `cdr3.alpha`, and the
TRB chain's `junction_aa` equals `cdr3.beta`. -/
theorem vdjdb_row_chain_emission (idx : Nat) (row : VdjdbRow) :
    ((vdjdbRowToCell idx row).chains.any fun c => c.locus == some "TRA")
        = row.cdr3_alpha.isSome
    ∧ ((vdjdbRowToCell idx row).chains.any fun c => c.locus == some "TRB")
        = row.cdr3_beta.isSome
    ∧ ((vdjdbRowToCell idx row).chains.all fun c =>
        c.consensus_count == some 0 && c.productive == some true) = true
    ∧ ((vdjdbRowToCell idx row).chains.all fun c =>
        !(c.locus == some "TRA") || c.junction_aa == row.cdr3_alpha) = true
    ∧ ((vdjdbRowToCell idx row).chains.all fun c =>
        !(c.locus == some "TRB") || c.junction_aa == row.cdr3_beta) = true
    ∧ (vdjdbRowToCell idx row).chains.length ≤ 2 := by
  rw [vdjdbRowToCell_chains]
  rcases ha : row.cdr3_alpha with _ | a <;> rcases hb : row.cdr3_beta with _ | b <;>
    simp [vdjdbAlphaChain, vdjdbBetaChain, emptyChainDict, ha, hb]

/-- Claim C7 fails as stated: the metadata allow-list has 25 fields, not 24,
so a concrete all-null row receives 25 metadata entries. -/
theorem vdjdb_metadata_count_not_24 :
    (vdjdbRowToCell 0 nullVdjdbRow).metadata.length ≠ 24 := by decide

/-- Claim C7 (amended): exactly the fields of the fixed 25-field metadata
allow-list are copied verbatim from the row onto the cell — a null column
value propagates as a null-valued entry, not an absent key — and columns
outside the allow-list are dropped. -/
theorem vdjdb_metadata_allowlist (idx : Nat) (row : VdjdbRow) :
    (vdjdbRowToCell idx row).metadata
        = INCLUDE_CELL_METADATA_FIELDS.map (fun f => (f, row.meta f))
    ∧ INCLUDE_CELL_METADATA_FIELDS.length = 25
    ∧ (∀ f, f ∈ INCLUDE_CELL_METADATA_FIELDS →
        (vdjdbRowToCell idx row).metadata.lookup f = some (row.meta f))
    ∧ (∀ f, f ∉ INCLUDE_CELL_METADATA_FIELDS →
        (vdjdbRowToCell idx row).metadata.lookup f = none) := by
  refine ⟨vdjdbRowToCell_metadata idx row, by decide, ?_, ?_⟩
  · intro f hf
    rw [vdjdbRowToCell_metadata]
    exact lookup_map_pair_of_mem row.meta _ f hf
  · intro f hf
    rw [vdjdbRowToCell_metadata]
    exact lookup_map_pair_of_not_mem row.meta _ f hf

/-- Witness for the amended C7: on the all-null row, the listed field
`species` is present with a null value, while an unlisted field is absent. -/
theorem vdjdb_metadata_allowlist_witness :
    (vdjdbRowToCell 0 nullVdjdbRow).metadata.lookup "species"
        = some (nullVdjdbRow.meta "species")
    ∧ (vdjdbRowToCell 0 nullVdjdbRow).metadata.lookup "not.a.field" = none :=
  ⟨(vdjdb_metadata_allowlist 0 nullVdjdbRow).2.2.1 "species" (by decide),
   (vdjdb_metadata_allowlist 0 nullVdjdbRow).2.2.2 "not.a.field" (by decide)⟩

/-- The chain list of an IEDB cell: chain 1 then chain 2, each after locus
resolution, added unconditionally. -/
theorem iedbRowToCell_chains (cid : Nat) (r : IedbRow) :
    (iedbRowToCell cid r).chains
      = [resolveChainLocus (iedbChain1 r), resolveChainLocus (iedbChain2 r)] := rfl

/-- Claim C9: every cell produced by IEDB normalization receives exactly two
chain records, whatever the row's null pattern; never zero or one. -/
theorem iedb_cell_always_two_chains (rows : List IedbRow) :
    ((iedbCells rows).all fun c => c.chains.length == 2) = true := by
  rw [List.all_eq_true]
  intro c hc
  simp only [iedbCells, List.mem_map] at hc
  obtain ⟨p, _, rfl⟩ := hc
  simp [iedbRowToCell_chains]

/-- Claim C10: the normalized chain 1's `d_call` is null regardless of the
row (also after locus resolution), so the locus resolver on chain 1 can never
match on a D-gene name; only chain 2's `d_call` is populated from the row. -/
theorem iedb_chain1_dcall_always_null (r : IedbRow) :
    (iedbChain1 r).d_call = none
    ∧ (resolveChainLocus (iedbChain1 r)).d_call = none
    ∧ inferLocusFromGeneNames (iedbChain1 r) [GeneKey.v, GeneKey.d, GeneKey.j]
        = inferLocusFromGeneNames (iedbChain1 r) [GeneKey.v, GeneKey.j]
    ∧ (iedbChain2 r).d_call = r.chain2DCurated := by
  refine ⟨rfl, ?_, ?_, rfl⟩
  · cases h : (iedbChain1 r).locus <;> simp [resolveChainLocus, h] <;> rfl
  · have hd : ((iedbChain1 r).geneField GeneKey.d).bind locusFromGeneName = none := rfl
    simp [inferLocusFromGeneNames, List.findSome?_cons, hd]

/-- Claim C2: for an IEDB row whose chain-type label is "light", the locus
resolver runs over (`v_call`, `d_call`, `j_call`) in priority order; when it
fails the chain is still added with its locus left unresolved, and the cell
is still produced in full — an unresolvable locus never aborts the run. -/
theorem iedb_light_chain_locus_resolution (i : Nat) (r : IedbRow) :
    (r.chain1Type = some "light" →
      (iedbRowToCell i r).chains.get? 0 = some (resolveChainLocus (iedbChain1 r))
      ∧ (resolveChainLocus (iedbChain1 r)).locus
          = inferLocusFromGeneNames (iedbChain1 r) [GeneKey.v, GeneKey.d, GeneKey.j]
      ∧ (inferLocusFromGeneNames (iedbChain1 r) [GeneKey.v, GeneKey.d, GeneKey.j] = none →
          (resolveChainLocus (iedbChain1 r)).locus = none
          ∧ (iedbRowToCell i r).chains.length = 2))
    ∧ (r.chain2Type = some "light" →
      (iedbRowToCell i r).chains.get? 1 = some (resolveChainLocus (iedbChain2 r))
      ∧ (resolveChainLocus (iedbChain2 r)).locus
          = inferLocusFromGeneNames (iedbChain2 r) [GeneKey.v, GeneKey.d, GeneKey.j]
      ∧ (inferLocusFromGeneNames (iedbChain2 r) [GeneKey.v, GeneKey.d, GeneKey.j] = none →
          (resolveChainLocus (iedbChain2 r)).locus = none
          ∧ (iedbRowToCell i r).chains.length = 2)) := by
  constructor
  · intro h
    have hl : (iedbChain1 r).locus = none := by
      show r.chain1Type.bind receptorDict = none
      rw [h]; rfl
    refine ⟨by rw [iedbRowToCell_chains]; rfl, by simp [resolveChainLocus, hl], ?_⟩
    intro hn
    exact ⟨by simp [resolveChainLocus, hl, hn], by rw [iedbRowToCell_chains]; rfl⟩
  · intro h
    have hl : (iedbChain2 r).locus = none := by
      show r.chain2Type.bind receptorDict = none
      rw [h]; rfl
    refine ⟨by rw [iedbRowToCell_chains]; rfl, by simp [resolveChainLocus, hl], ?_⟩
    intro hn
    exact ⟨by simp [resolveChainLocus, hl, hn], by rw [iedbRowToCell_chains]; rfl⟩

/-- An IEDB row labelled "light" on both chains whose gene names match no
locus code, so locus resolution fails. -/
def unresolvedLightRow : IedbRow :=
  ⟨some "CASSL", none, some "CASSK", none,
   some "XYZ1", none, some "XYZ2", none,
   none, none, none, none,
   some "XYZ3", none, some "XYZ4", none,
   some "Homo sapiens", some "antigen-a", some "T cell",
   some "light", some "light",
   some "42", none, none⟩

/-- Witness for C2: on a concrete unresolvable "light" row, the chain is in
the cell with locus still null and the cell still has both chains. -/
theorem iedb_light_chain_locus_resolution_witness :
    (iedbRowToCell 0 unresolvedLightRow).chains.get? 0
        = some (resolveChainLocus (iedbChain1 unresolvedLightRow))
    ∧ (resolveChainLocus (iedbChain1 unresolvedLightRow)).locus = none
    ∧ (iedbRowToCell 0 unresolvedLightRow).chains.length = 2 := by
  have h := (iedb_light_chain_locus_resolution 0 unresolvedLightRow).1 rfl
  have hn : inferLocusFromGeneNames (iedbChain1 unresolvedLightRow)
      [GeneKey.v, GeneKey.d, GeneKey.j] = none := by decide
  exact ⟨h.1, (h.2.2 hn).1, (h.2.2 hn).2⟩

/-- Claim C3: in IEDB preprocessing, each of the 8 curated fields (CDR3, V,
D, J of both chains) is independently back-filled from its calculated column
when null and then upper-cased; in particular a null curated V gene with a
non-null calculated V gene yields a chain whose `v_call` is the calculated
value upper-cased. -/
theorem iedb_curated_backfill (r : IedbRow) :
    (r.chain1CDR3Curated = none →
      (replaceCuratedRow r).chain1CDR3Curated = r.chain1CDR3Calculated.map strUpper)
    ∧ (r.chain2CDR3Curated = none →
      (replaceCuratedRow r).chain2CDR3Curated = r.chain2CDR3Calculated.map strUpper)
    ∧ (r.chain1VCurated = none →
      (replaceCuratedRow r).chain1VCurated = r.chain1VCalculated.map strUpper)
    ∧ (r.chain2VCurated = none →
      (replaceCuratedRow r).chain2VCurated = r.chain2VCalculated.map strUpper)
    ∧ (r.chain1DCurated = none →
      (replaceCuratedRow r).chain1DCurated = r.chain1DCalculated.map strUpper)
    ∧ (r.chain2DCurated = none →
      (replaceCuratedRow r).chain2DCurated = r.chain2DCalculated.map strUpper)
    ∧ (r.chain1JCurated = none →
      (replaceCuratedRow r).chain1JCurated = r.chain1JCalculated.map strUpper)
    ∧ (r.chain2JCurated = none →
      (replaceCuratedRow r).chain2JCurated = r.chain2JCalculated.map strUpper)
    ∧ (∀ s, r.chain1CDR3Curated = some s →
      (replaceCuratedRow r).chain1CDR3Curated = some (strUpper s))
    ∧ (∀ s, r.chain2CDR3Curated = some s →
      (replaceCuratedRow r).chain2CDR3Curated = some (strUpper s))
    ∧ (∀ s, r.chain1VCurated = some s →
      (replaceCuratedRow r).chain1VCurated = some (strUpper s))
    ∧ (∀ s, r.chain2VCurated = some s →
      (replaceCuratedRow r).chain2VCurated = some (strUpper s))
    ∧ (∀ s, r.chain1DCurated = some s →
      (replaceCuratedRow r).chain1DCurated = some (strUpper s))
    ∧ (∀ s, r.chain2DCurated = some s →
      (replaceCuratedRow r).chain2DCurated = some (strUpper s))
    ∧ (∀ s, r.chain1JCurated = some s →
      (replaceCuratedRow r).chain1JCurated = some (strUpper s))
    ∧ (∀ s, r.chain2JCurated = some s →
      (replaceCuratedRow r).chain2JCurated = some (strUpper s))
    ∧ (∀ g, r.chain1VCurated = none → r.chain1VCalculated = some g →
      (iedbChain1 (replaceCuratedRow r)).v_call = some (strUpper g)) := by
  refine ⟨?_, ?_, ?_, ?_, ?_, ?_, ?_, ?_, ?_, ?_, ?_, ?_, ?_, ?_, ?_, ?_, ?_⟩ <;>
    · intros
      simp_all [replaceCuratedRow, backfillUpper, iedbChain1]

/-- An IEDB row with a curated CDR3 but only a calculated V gene, both in
lower case. -/
def backfillRow : IedbRow :=
  ⟨some "cass", none, some "cask", none,
   none, some "trav1-2", none, some "trbv6",
   none, none, none, some "trbd1",
   none, some "traj3", none, some "trbj2",
   some "Homo sapiens", some "antigen-b", some "T cell",
   some "alpha", some "beta",
   some "7", none, none⟩

/-- Witness for C3: on the concrete row, the calculated V gene is back-filled
and upper-cased into `v_call`, and the curated CDR3 is upper-cased. -/
theorem iedb_curated_backfill_witness :
    (iedbChain1 (replaceCuratedRow backfillRow)).v_call = some (strUpper "trav1-2")
    ∧ (replaceCuratedRow backfillRow).chain1CDR3Curated = some (strUpper "cass") := by
  obtain ⟨h1, h2, h3, h4, h5, h6, h7, h8, h9, h10, h11, h12, h13, h14, h15, h16, h17⟩ :=
    iedb_curated_backfill backfillRow
  exact ⟨h17 "trav1-2" rfl rfl, h9 "cass" rfl⟩

/-- Deduplication keeps at most one element per key, and none whose key was
already seen. -/
theorem countP_dedupByKeyAux {α κ : Type} [DecidableEq κ] (key : α → κ) (k : κ)
    (l : List α) : ∀ seen : List κ,
    (dedupByKeyAux key seen l).countP (fun r => decide (key r = k))
      ≤ if k ∈ seen then 0 else 1 := by
  induction l with
  | nil => intro seen; simp [dedupByKeyAux]
  | cons r rs ih =>
    intro seen
    simp only [dedupByKeyAux]
    by_cases hs : key r ∈ seen
    · rw [if_pos hs]
      exact ih seen
    · rw [if_neg hs, List.countP_cons]
      by_cases hk : key r = k
      · have hkm : k ∈ key r :: seen := by rw [← hk]; exact List.mem_cons_self _ _
        have h0 := ih (key r :: seen)
        rw [if_pos hkm] at h0
        have hks : k ∉ seen := fun hmem => hs (by rw [hk]; exact hmem)
        rw [if_neg hks, decide_eq_true hk]
        simp only [if_true]
        omega
      · have h0 := ih (key r :: seen)
        rw [decide_eq_false hk]
        have hiff : k ∈ key r :: seen ↔ k ∈ seen := by
          constructor
          · intro hmem
            rcases List.mem_cons.mp hmem with h1 | h1
            · exact absurd h1.symm hk
            · exact h1
          · exact fun hmem => List.mem_cons_of_mem _ hmem
        by_cases hks : k ∈ seen
        · rw [if_pos hks]
          rw [if_pos (hiff.mpr hks)] at h0
          simp only [Bool.false_eq_true, if_neg, if_false, Nat.add_zero]
          omega
        · rw [if_neg hks]
          rw [if_neg (fun hmem => hks (hiff.mp hmem))] at h0
          simp only [Bool.false_eq_true, if_neg, if_false, Nat.add_zero]
          omega

/-- Claim C4: after the IEDB deduplication passes, at most one row with any
given key tuple (curated CDR3s, organism, antigen, response type, chain
types) remains, and the later per-row stages never duplicate rows, so at most
one row per key tuple reaches per-row normalization. -/
theorem iedb_dedup_at_most_one (rows : List IedbRow) (k : IedbKeyT) :
    ((iedbDedup rows).countP (fun r => decide (iedbKey r = k))) ≤ 1
    ∧ (iedbCells rows).length ≤ (iedbDedup rows).length := by
  constructor
  · have h := countP_dedupByKeyAux iedbKey k (dedupByKey (fun r => r) rows) []
    simpa [iedbDedup, dedupByKey] using h
  · calc (iedbCells rows).length = (iedbFiltered rows).length := by
          simp [iedbCells]
      _ ≤ (iedbWithIds rows).length := List.length_filter_le _ _
      _ = (iedbDedup rows).length := by simp [iedbWithIds, iedbPreprocessed]

/-- An IEDB row whose first chain-type label is not in the accepted set, so
the chain-type filter drops it. -/
def badTypeRow : IedbRow :=
  ⟨some "CASA", none, none, none,
   none, none, none, none,
   none, none, none, none,
   none, none, none, none,
   some "Homo sapiens", some "antigen-c", some "T cell",
   some "weird", some "beta",
   some "1", none, none⟩

/-- An IEDB row with accepted chain-type labels (and a key tuple distinct
from `badTypeRow`, so deduplication keeps both). -/
def goodTypeRow : IedbRow :=
  ⟨some "CASB", none, none, none,
   none, none, none, none,
   none, none, none, none,
   none, none, none, none,
   some "Homo sapiens", some "antigen-c", some "T cell",
   some "alpha", some "beta",
   some "2", none, none⟩

/-- Claim C5 fails as stated: cell ids are assigned before the chain-type
filter, so when the filter drops the first row the only surviving cell keeps
id 1 — the output identifiers are neither 0-based nor contiguous. -/
theorem iedb_cell_ids_counterexample :
    (iedbCells [badTypeRow, goodTypeRow]).map AirrCell.cell_id = ["1"]
    ∧ (iedbFiltered [badTypeRow, goodTypeRow]).map Prod.fst
        ≠ List.range ((iedbFiltered [badTypeRow, goodTypeRow]).map Prod.fst).length := by
  constructor
  · decide
  · decide

/-- Claim C5 (amended): each cell id equals the row's post-deduplication
positional index; over the post-deduplication table these ids are 0-based and
contiguous, and the ids of the cells that reach the output form a strictly
increasing subsequence of them (not necessarily 0-based or contiguous,
because the chain-type filter runs after id assignment). -/
theorem iedb_cell_ids (rows : List IedbRow) :
    (iedbWithIds rows).map Prod.fst = List.range (iedbPreprocessed rows).length
    ∧ ((iedbFiltered rows).map Prod.fst).Pairwise (· < ·)
    ∧ (iedbCells rows).map AirrCell.cell_id
        = ((iedbFiltered rows).map Prod.fst).map toString := by
  refine ⟨List.enum_map_fst _, ?_, ?_⟩
  · have hsub : List.Sublist ((iedbFiltered rows).map Prod.fst)
        ((iedbWithIds rows).map Prod.fst) :=
      (List.filter_sublist _).map _
    simp only [iedbWithIds] at hsub
    rw [List.enum_map_fst] at hsub
    exact (List.pairwise_lt_range _).sublist hsub
  · simp only [iedbCells, List.map_map]
    rfl

/-- Claim C6: with `cached` true, either kind of cache-read failure (missing
file, unreadable format) is swallowed and control falls through to the full
fetch-and-normalize path; the failure is never surfaced. -/
theorem load_cache_failure_falls_through (cr : CacheRead (List AirrCell))
    (fv : Unit → List VdjdbRow) (fi : Unit → List IedbRow)
    (h : cr = CacheRead.missingFile ∨ cr = CacheRead.unreadableFormat) :
    vdjdbLoad true cr fv = (vdjdbNormalize (fv ()), 1)
    ∧ iedbLoad true cr fi = (iedbCells (fi ()), 1) := by
  rcases h with h | h <;> subst h <;> exact ⟨rfl, rfl⟩

/-- Witness for C6: a concrete missing-file cache read falls through to the
fetch path on both loaders. -/
theorem load_cache_failure_falls_through_witness :
    vdjdbLoad true CacheRead.missingFile (fun _ => []) = (vdjdbNormalize [], 1)
    ∧ iedbLoad true CacheRead.missingFile (fun _ => []) = (iedbCells [], 1) :=
  load_cache_failure_falls_through CacheRead.missingFile (fun _ => [])
    (fun _ => []) (Or.inl rfl)

/-- Claim C8: with `cached` true and a readable cache, the cached result is
returned as-is and the fetch collaborator is invoked zero times. -/
theorem load_cache_hit_no_fetch (d : List AirrCell)
    (fv : Unit → List VdjdbRow) (fi : Unit → List IedbRow) :
    vdjdbLoad true (CacheRead.ok d) fv = (d, 0)
    ∧ iedbLoad true (CacheRead.ok d) fi = (d, 0) :=
  ⟨rfl, rfl⟩

end Scirpy
